import Mathlib

set_option maxHeartbeats 1000000

/-!
A verification development for the TicTacToe Memory Challenge game engine
(`src/tictactoe_game.py`).  The engine is shallowly embedded: the mutable
`TicTacToeGame` dataclass becomes an immutable record, each mutating method
becomes a function from the old record to the result and the new record,
Python ints become `Int` (or `Nat` for the counters that are only ever
incremented or reset to zero), and the one fallible list access
(`empty[0]` in `_calculate_best_move`) is an `Option`.
-/

/-- `Mark` enum: `EMPTY`, `X` (player), `O` (computer). -/
inductive Mark where
  | EMPTY
  | X
  | O
deriving DecidableEq, Repr

/-- `GameState` enum: the game phase. -/
inductive GameState where
  | IDLE
  | PLAYER_TURN
  | INVISIBLE
  | COMPUTER_TURN
  | PLAYER_WINS
  | COMPUTER_WINS
  | DRAW
deriving DecidableEq, Repr

/-- `Difficulty` enum. -/
inductive Difficulty where
  | EASY
  | MEDIUM
  | HARD
deriving DecidableEq, Repr

/-- `COUNTDOWN_TIMES`: countdown time for each difficulty. -/
def COUNTDOWN_TIMES : Difficulty → Int
  | Difficulty.EASY => 10
  | Difficulty.MEDIUM => 5
  | Difficulty.HARD => 1

-- The `TOKEN_REWARDS` table.
namespace TOKEN_REWARDS

def win_easy : Int := 5

def win_medium : Int := 10

def win_hard : Int := 20

def streak_bonus : Int := 5

def draw : Int := 2

end TOKEN_REWARDS

/-- One entry of the `AVATARS` catalog.  The `emoji` and `description`
display-only fields are carried as plain strings like the rest. -/
structure Avatar where
  id : String
  name : String
  emoji : String
  cost : Int
  description : String
deriving DecidableEq, Repr

/-- The `AVATARS` catalog (the emoji strings are kept abstract as their
escaped byte content is irrelevant to the logic; every field the engine
reads — `id`, `name`, `cost` — is verbatim). -/
def AVATARS : List Avatar := [
  { id := "egg", name := "Egg", emoji := "e0", cost := 0, description := "Just starting out!" },
  { id := "chick", name := "Chick", emoji := "e1", cost := 25, description := "Hatching your skills!" },
  { id := "chicken", name := "Chicken", emoji := "e2", cost := 50, description := "Getting stronger!" },
  { id := "rooster", name := "Rooster", emoji := "e3", cost := 100, description := "Rise and shine!" },
  { id := "eagle", name := "Eagle", emoji := "e4", cost := 200, description := "Soaring high!" },
  { id := "dragon", name := "Dragon", emoji := "e5", cost := 350, description := "Legendary power!" },
  { id := "unicorn", name := "Unicorn", emoji := "e6", cost := 500, description := "Magical master!" },
  { id := "alien", name := "Alien", emoji := "e7", cost := 750, description := "Out of this world!" },
  { id := "robot", name := "Robot", emoji := "e8", cost := 1000, description := "Supreme intelligence!" },
  { id := "crown", name := "Champion", emoji := "e9", cost := 1500, description := "The ultimate champion!" }]

/-- `WIN_PATTERNS`: the 8 winning index triples, in source order. -/
def WIN_PATTERNS : List (List Nat) :=
  [[0, 1, 2], [3, 4, 5], [6, 7, 8],
   [0, 3, 6], [1, 4, 7], [2, 5, 8],
   [0, 4, 8], [2, 4, 6]]

/-- The `MoveResult` dataclass. -/
structure MoveResult where
  success : Bool
  position : Int
  mark : Mark
  winning_cells : Option (List Nat)
  message : String
deriving DecidableEq, Repr

/-- The `TicTacToeGame` dataclass: all mutable engine state. -/
structure TicTacToeGame where
  board : List Mark
  state : GameState
  difficulty : Difficulty
  countdown_seconds : Int
  board_visible : Bool
  winner : Option Mark
  winning_cells : List Nat
  last_move : Option Int
  win_streak : Nat
  best_streak : Nat
  games_played : Nat
  games_won : Nat
  loss_streak : Nat
  current_countdown : Int
  tokens : Int
  total_tokens_earned : Int
  current_avatar : String
  unlocked_avatars : List String
deriving DecidableEq, Repr

/-- `reset`: initialize/reset the game board, keeping difficulty and stats. -/
def reset (g : TicTacToeGame) : TicTacToeGame :=
  { g with
    board := List.replicate 9 Mark.EMPTY
    state := GameState.PLAYER_TURN
    board_visible := true
    winner := none
    winning_cells := []
    last_move := none }

/-- The engine state right after construction: the dataclass defaults, then
`__post_init__` runs `reset()` on the empty board. -/
def initial_game : TicTacToeGame :=
  reset
    { board := []
      state := GameState.IDLE
      difficulty := Difficulty.EASY
      countdown_seconds := 10
      board_visible := true
      winner := none
      winning_cells := []
      last_move := none
      win_streak := 0
      best_streak := 0
      games_played := 0
      games_won := 0
      loss_streak := 0
      current_countdown := 10
      tokens := 0
      total_tokens_earned := 0
      current_avatar := "egg"
      unlocked_avatars := ["egg"] }

/-- `set_difficulty`: set the difficulty level. -/
def set_difficulty (g : TicTacToeGame) (difficulty : Difficulty) : TicTacToeGame :=
  { g with
    difficulty := difficulty
    current_countdown := COUNTDOWN_TIMES difficulty
    countdown_seconds := COUNTDOWN_TIMES difficulty }

/-- `set_board_visible`: set visibility; hiding during `PLAYER_TURN` moves the
phase to `INVISIBLE`. -/
def set_board_visible (g : TicTacToeGame) (visible : Bool) : TicTacToeGame :=
  let g := { g with board_visible := visible }
  if visible = false ∧ g.state = GameState.PLAYER_TURN then
    { g with state := GameState.INVISIBLE }
  else g

/-- `is_position_valid`: `0 <= position < 9 and board[position] == EMPTY`. -/
def is_position_valid (g : TicTacToeGame) (position : Int) : Bool :=
  decide (0 ≤ position) && decide (position < 9) &&
    (g.board.getD position.toNat Mark.EMPTY == Mark.EMPTY)

/-- `get_empty_positions`: all empty indices of the board, ascending. -/
def get_empty_positions (board : List Mark) : List Nat :=
  (List.range 9).filter (fun i => board.getD i Mark.EMPTY == Mark.EMPTY)

/-- `check_win`: whether some winning pattern is entirely `mark`. -/
def check_win (board : List Mark) (mark : Mark) : Bool :=
  WIN_PATTERNS.any (fun pattern => pattern.all (fun i => board.getD i Mark.EMPTY == mark))

/-- `get_winning_cells`: the first fully-`mark` pattern, else `[]`. -/
def get_winning_cells (board : List Mark) (mark : Mark) : List Nat :=
  (WIN_PATTERNS.find? (fun pattern => pattern.all (fun i => board.getD i Mark.EMPTY == mark))).getD []

/-- `is_board_full`: no cell is `EMPTY`. -/
def is_board_full (board : List Mark) : Bool :=
  board.all (fun cell => cell != Mark.EMPTY)

/-- One simulate-and-revert scan of `_calculate_best_move` (priorities 1
and 2): place a trial `mark` at each candidate, test the win, and put
`EMPTY` back — threading the mutated board through exactly as the Python
loop mutates `self.board`. -/
def scan_try (board : List Mark) (mark : Mark) : List Nat → Option Nat × List Mark
  | [] => (none, board)
  | pos :: rest =>
    let b1 := board.set pos mark
    if check_win b1 mark then (some pos, b1.set pos Mark.EMPTY)
    else scan_try (b1.set pos Mark.EMPTY) mark rest

/-- `_calculate_best_move`: win, block, center, corner, edge, fallback.
Returns the chosen position — `none` models the `IndexError` that
`empty[0]` raises when the board has no empty cell — together with the
board as the scan loops leave it. -/
def _calculate_best_move (board : List Mark) : Option Nat × List Mark :=
  let empty := get_empty_positions board
  match scan_try board Mark.O empty with
  | (some pos, b) => (some pos, b)
  | (none, b1) =>
    match scan_try b1 Mark.X empty with
    | (some pos, b) => (some pos, b)
    | (none, b2) =>
      if 4 ∈ empty then (some 4, b2)
      else
        match ([0, 2, 6, 8] : List Nat).find? (fun corner => empty.contains corner) with
        | some corner => (some corner, b2)
        | none =>
          match ([1, 3, 5, 7] : List Nat).find? (fun edge => empty.contains edge) with
          | some edge => (some edge, b2)
          | none => (empty.head?, b2)

/-- `_record_game_result`: streaks, adaptive countdown, token rewards. -/
def _record_game_result (g : TicTacToeGame) (won : Bool) (draw : Bool) : TicTacToeGame :=
  let g := { g with games_played := g.games_played + 1 }
  let (g, tokens_earned) : TicTacToeGame × Int :=
    if won then
      let g := { g with
        games_won := g.games_won + 1
        win_streak := g.win_streak + 1
        loss_streak := 0 }
      let g := if g.win_streak > g.best_streak then { g with best_streak := g.win_streak } else g
      let g := if g.current_countdown > 1 then
          { g with current_countdown := g.current_countdown - 1 }
        else g
      let tokens_earned :=
        match g.difficulty with
        | Difficulty.EASY => TOKEN_REWARDS.win_easy
        | Difficulty.MEDIUM => TOKEN_REWARDS.win_medium
        | Difficulty.HARD => TOKEN_REWARDS.win_hard
      let tokens_earned :=
        if g.win_streak > 1 then
          tokens_earned + TOKEN_REWARDS.streak_bonus * ((g.win_streak : Int) - 1)
        else tokens_earned
      (g, tokens_earned)
    else if draw then
      (g, TOKEN_REWARDS.draw)
    else
      let g := { g with win_streak := 0, loss_streak := g.loss_streak + 1 }
      let g := if g.loss_streak ≥ 3 ∧ g.current_countdown < 10 then
          { g with current_countdown := g.current_countdown + 1, loss_streak := 0 }
        else g
      (g, 0)
  { g with
    tokens := g.tokens + tokens_earned
    total_tokens_earned := g.total_tokens_earned + tokens_earned }

/-- `player_move`: player (X) makes a move. -/
def player_move (g : TicTacToeGame) (position : Int) : MoveResult × TicTacToeGame :=
  if g.state ∉ [GameState.PLAYER_TURN, GameState.INVISIBLE, GameState.IDLE] then
    ({ success := false, position := position, mark := Mark.X, winning_cells := none,
       message := "Not your turn" }, g)
  else
    let g := if g.state = GameState.IDLE then reset g else g
    if is_position_valid g position = false then
      ({ success := false, position := position, mark := Mark.X, winning_cells := none,
         message := "Invalid position" }, g)
    else
      let g := { g with
        board := g.board.set position.toNat Mark.X
        last_move := some position
        board_visible := true }
      if check_win g.board Mark.X then
        let g := { g with
          state := GameState.PLAYER_WINS
          winner := some Mark.X
          winning_cells := get_winning_cells g.board Mark.X }
        let g := _record_game_result g true false
        ({ success := true, position := position, mark := Mark.X,
           winning_cells := some g.winning_cells, message := "You win!" }, g)
      else if is_board_full g.board then
        let g := { g with state := GameState.DRAW }
        let g := _record_game_result g false true
        ({ success := true, position := position, mark := Mark.X, winning_cells := none,
           message := "It\x27s a draw!" }, g)
      else
        ({ success := true, position := position, mark := Mark.X, winning_cells := none,
           message := "Computer\x27s turn" }, { g with state := GameState.COMPUTER_TURN })

/-- `computer_move`: computer (O) moves using the heuristic.  `none` models
the `IndexError` raised when `_calculate_best_move` indexes an empty list
(at that point every trial mark has been reverted, so the board the scan
returns is the board as it was). -/
def computer_move (g : TicTacToeGame) : Option (MoveResult × TicTacToeGame) :=
  if g.state ≠ GameState.COMPUTER_TURN then
    some ({ success := false, position := -1, mark := Mark.O, winning_cells := none,
            message := "Not computer\x27s turn" }, g)
  else
    match _calculate_best_move g.board with
    | (none, _) => none
    | (some position, b) =>
      let g := { g with
        board := b.set position Mark.O
        last_move := some (position : Int) }
      if check_win g.board Mark.O then
        let g := { g with
          state := GameState.COMPUTER_WINS
          winner := some Mark.O
          winning_cells := get_winning_cells g.board Mark.O }
        let g := _record_game_result g false false
        some ({ success := true, position := (position : Int), mark := Mark.O,
                winning_cells := some g.winning_cells, message := "Computer wins!" }, g)
      else if is_board_full g.board then
        let g := { g with state := GameState.DRAW }
        let g := _record_game_result g false true
        some ({ success := true, position := (position : Int), mark := Mark.O,
                winning_cells := none, message := "It\x27s a draw!" }, g)
      else
        some ({ success := true, position := (position : Int), mark := Mark.O,
                winning_cells := none, message := "Your turn!" },
              { g with state := GameState.PLAYER_TURN })

/-- Result record for the avatar shop operations (`purchase_avatar` returns
a dict with `success`, `message`, and on success the avatar record). -/
structure PurchaseResult where
  success : Bool
  message : String
  avatar : Option Avatar
deriving DecidableEq, Repr

/-- `purchase_avatar`: buy an avatar with tokens. -/
def purchase_avatar (g : TicTacToeGame) (avatar_id : String) : PurchaseResult × TicTacToeGame :=
  match AVATARS.find? (fun a => a.id == avatar_id) with
  | none => ({ success := false, message := "Avatar not found", avatar := none }, g)
  | some avatar =>
    if avatar_id ∈ g.unlocked_avatars then
      ({ success := false, message := "Avatar already unlocked", avatar := none }, g)
    else if g.tokens < avatar.cost then
      ({ success := false,
         message := s!"Not enough tokens! Need {avatar.cost}, have {g.tokens}",
         avatar := none }, g)
    else
      ({ success := true, message := s!"Unlocked {avatar.name}!", avatar := some avatar },
       { g with
         tokens := g.tokens - avatar.cost
         unlocked_avatars := g.unlocked_avatars ++ [avatar_id]
         current_avatar := avatar_id })

/-- `set_avatar`: select an already-unlocked avatar. -/
def set_avatar (g : TicTacToeGame) (avatar_id : String) : PurchaseResult × TicTacToeGame :=
  if avatar_id ∉ g.unlocked_avatars then
    ({ success := false, message := "Avatar not unlocked", avatar := none }, g)
  else
    ({ success := true, message := "Avatar changed!", avatar := none },
     { g with current_avatar := avatar_id })

/-- `get_current_avatar`: the catalog record of the current avatar,
defaulting to the first entry. -/
def get_current_avatar (g : TicTacToeGame) : Avatar :=
  (AVATARS.find? (fun a => a.id == g.current_avatar)).getD (AVATARS.getD 0
    { id := "egg", name := "Egg", emoji := "e0", cost := 0, description := "Just starting out!" })

/-- The public engine operations an external caller can invoke. -/
inductive Op where
  | opReset
  | opSetDifficulty (d : Difficulty)
  | opPlayerMove (position : Int)
  | opComputerMove
  | opSetBoardVisible (visible : Bool)
  | opPurchaseAvatar (avatar_id : String)
  | opSetAvatar (avatar_id : String)

/-- The engine state after one operation.  For `computer_move` on the
`IndexError` path the scan loops have reverted every trial mark before the
failing index, so the state is as before the call. -/
def apply_op (g : TicTacToeGame) : Op → TicTacToeGame
  | Op.opReset => reset g
  | Op.opSetDifficulty d => set_difficulty g d
  | Op.opPlayerMove p => (player_move g p).2
  | Op.opComputerMove =>
    match computer_move g with
    | some r => r.2
    | none => g
  | Op.opSetBoardVisible v => set_board_visible g v
  | Op.opPurchaseAvatar id => (purchase_avatar g id).2
  | Op.opSetAvatar id => (set_avatar g id).2

/-- Engine states reachable from the freshly constructed engine by any
sequence of public operations. -/
inductive Reachable : TicTacToeGame → Prop where
  | init : Reachable initial_game
  | step {g : TicTacToeGame} (op : Op) : Reachable g → Reachable (apply_op g op)

/-! ### Helper lemmas -/

/-- Setting a trial mark and putting `EMPTY` back restores a board whose
cell was `EMPTY` (out-of-range sets are no-ops on both sides). -/
lemma set_set_empty_cancel (board : List Mark) (p : Nat) (m : Mark)
    (h : board.getD p Mark.EMPTY = Mark.EMPTY) :
    (board.set p m).set p Mark.EMPTY = board := by
  rw [List.set_set]
  apply List.ext_getElem?
  intro n
  rw [List.getElem?_set]
  split
  · rename_i hpn
    subst hpn
    split
    · rename_i hlt
      rw [List.getD_eq_getElem?_getD] at h
      rw [List.getElem?_eq_getElem hlt] at h ⊢
      simpa using h.symm
    · rename_i hnlt
      rw [List.getElem?_eq_none (Nat.le_of_not_lt hnlt)]
  · rfl

/-- Members of `get_empty_positions` are below 9 and hold `EMPTY`. -/
lemma mem_get_empty_positions {board : List Mark} {p : Nat}
    (h : p ∈ get_empty_positions board) :
    board.getD p Mark.EMPTY = Mark.EMPTY ∧ p < 9 := by
  unfold get_empty_positions at h
  rw [List.mem_filter, List.mem_range] at h
  exact ⟨by simpa using h.2, h.1⟩

/-- `get_empty_positions` lists indices in strictly ascending order, so a
first match over it is the lowest-index match. -/
lemma get_empty_positions_sorted (board : List Mark) :
    (get_empty_positions board).Pairwise (· < ·) :=
  List.Pairwise.filter _ (List.pairwise_lt_range 9)

/-- A board with `mark` at exactly the indices of `pattern` and `EMPTY`
everywhere else. -/
def pattern_board (pattern : List Nat) (mark : Mark) : List Mark :=
  (List.range 9).map (fun i => if i ∈ pattern then mark else Mark.EMPTY)

/-! ### Claim theorems -/

/-- C7: `reset()` sets the board to 9 empty cells, phase `PLAYER_TURN`,
visibility true, and clears winner, winning cells and last move, while
leaving difficulty, countdown, streaks, game counters, tokens and avatar
state exactly unchanged. -/
theorem reset_round_state_and_frame (g : TicTacToeGame) :
    (reset g).board = List.replicate 9 Mark.EMPTY ∧
    (reset g).state = GameState.PLAYER_TURN ∧
    (reset g).board_visible = true ∧
    (reset g).winner = none ∧
    (reset g).winning_cells = [] ∧
    (reset g).last_move = none ∧
    (reset g).difficulty = g.difficulty ∧
    (reset g).current_countdown = g.current_countdown ∧
    (reset g).countdown_seconds = g.countdown_seconds ∧
    (reset g).win_streak = g.win_streak ∧
    (reset g).best_streak = g.best_streak ∧
    (reset g).games_played = g.games_played ∧
    (reset g).games_won = g.games_won ∧
    (reset g).loss_streak = g.loss_streak ∧
    (reset g).tokens = g.tokens ∧
    (reset g).total_tokens_earned = g.total_tokens_earned ∧
    (reset g).current_avatar = g.current_avatar ∧
    (reset g).unlocked_avatars = g.unlocked_avatars :=
  ⟨rfl, rfl, rfl, rfl, rfl, rfl, rfl, rfl, rfl, rfl, rfl, rfl, rfl, rfl, rfl, rfl, rfl, rfl⟩

/-- C3: every one of the 8 winning triples, filled with a player or opponent
mark on an otherwise empty board, is detected by `check_win` and reported
exactly by `get_winning_cells`; conversely `check_win` holds only when some
triple of `WIN_PATTERNS` is entirely occupied by the mark. -/
theorem win_patterns_detect_and_complete :
    (∀ pattern ∈ WIN_PATTERNS, ∀ mark ∈ [Mark.X, Mark.O],
      check_win (pattern_board pattern mark) mark = true ∧
      get_winning_cells (pattern_board pattern mark) mark = pattern) ∧
    (∀ (board : List Mark) (mark : Mark), check_win board mark = true →
      ∃ pattern ∈ WIN_PATTERNS, ∀ i ∈ pattern, board.getD i Mark.EMPTY = mark) := by
  constructor
  · decide
  · intro board mark h
    unfold check_win at h
    rw [List.any_eq_true] at h
    obtain ⟨pattern, hmem, hall⟩ := h
    rw [List.all_eq_true] at hall
    exact ⟨pattern, hmem, fun i hi => by simpa using hall i hi⟩

/-- C3 witness: the top-row triple for the player mark, and the
second-diagonal triple for the opponent mark. -/
theorem win_patterns_detect_and_complete_witness :
    (check_win (pattern_board [0, 1, 2] Mark.X) Mark.X = true ∧
     get_winning_cells (pattern_board [0, 1, 2] Mark.X) Mark.X = [0, 1, 2]) ∧
    (∃ pattern ∈ WIN_PATTERNS, ∀ i ∈ pattern,
      (pattern_board [2, 4, 6] Mark.O).getD i Mark.EMPTY = Mark.O) :=
  ⟨win_patterns_detect_and_complete.1 [0, 1, 2] (by decide) Mark.X (by decide),
   win_patterns_detect_and_complete.2 (pattern_board [2, 4, 6] Mark.O) Mark.O (by decide)⟩

/-- C4: a recorded win adds the difficulty base (Easy 5, Medium 10, Hard 20)
plus, exactly when the post-increment win streak exceeds 1, a bonus of
5 × (win_streak − 1), to both the token balance and the lifetime total; a
recorded draw adds 2 to both; a recorded loss adds 0 to both. -/
theorem record_result_token_rewards (g : TicTacToeGame) :
    ((_record_game_result g true false).tokens =
      g.tokens +
        ((match g.difficulty with
          | Difficulty.EASY => (5 : Int)
          | Difficulty.MEDIUM => 10
          | Difficulty.HARD => 20) +
         (if g.win_streak + 1 > 1 then 5 * (((g.win_streak : Int) + 1) - 1) else 0)) ∧
     (_record_game_result g true false).total_tokens_earned =
      g.total_tokens_earned +
        ((match g.difficulty with
          | Difficulty.EASY => (5 : Int)
          | Difficulty.MEDIUM => 10
          | Difficulty.HARD => 20) +
         (if g.win_streak + 1 > 1 then 5 * (((g.win_streak : Int) + 1) - 1) else 0))) ∧
    ((_record_game_result g false true).tokens = g.tokens + 2 ∧
     (_record_game_result g false true).total_tokens_earned = g.total_tokens_earned + 2) ∧
    ((_record_game_result g false false).tokens = g.tokens ∧
     (_record_game_result g false false).total_tokens_earned = g.total_tokens_earned) := by
  obtain ⟨bo, st, di, cs, bv, w, wc, lm, ws, bs, gp, gw, ls, cc, tok, tot, ca, ua⟩ := g
  refine ⟨⟨?_, ?_⟩, ⟨?_, ?_⟩, ?_, ?_⟩ <;>
    simp only [_record_game_result] <;>
    cases di <;>
    split_ifs <;>
    simp_all [TOKEN_REWARDS.win_easy, TOKEN_REWARDS.win_medium, TOKEN_REWARDS.win_hard,
      TOKEN_REWARDS.streak_bonus, TOKEN_REWARDS.draw]

/-- C5: a recorded loss increments games_played, zeroes win_streak and
increments loss_streak; exactly when the incremented loss_streak has
reached 3 and the countdown is below 10, the countdown rises by 1 and the
loss_streak resets to 0.  Concretely, from a fresh engine on Hard, three
consecutive losses leave the countdown at 2 and the loss streak at 0. -/
theorem record_loss_streak_and_mercy (g : TicTacToeGame) :
    ((_record_game_result g false false).games_played = g.games_played + 1 ∧
     (_record_game_result g false false).win_streak = 0 ∧
     (if g.loss_streak + 1 ≥ 3 ∧ g.current_countdown < 10 then
        (_record_game_result g false false).current_countdown = g.current_countdown + 1 ∧
        (_record_game_result g false false).loss_streak = 0
      else
        (_record_game_result g false false).current_countdown = g.current_countdown ∧
        (_record_game_result g false false).loss_streak = g.loss_streak + 1)) ∧
    ((_record_game_result (_record_game_result (_record_game_result
        (set_difficulty initial_game Difficulty.HARD) false false) false false)
        false false).current_countdown = 2 ∧
     (_record_game_result (_record_game_result (_record_game_result
        (set_difficulty initial_game Difficulty.HARD) false false) false false)
        false false).loss_streak = 0) := by
  constructor
  · obtain ⟨bo, st, di, cs, bv, w, wc, lm, ws, bs, gp, gw, ls, cc, tok, tot, ca, ua⟩ := g
    refine ⟨?_, ?_, ?_⟩ <;>
      simp only [_record_game_result] <;>
      split_ifs <;>
      simp_all
  · exact ⟨by decide, by decide⟩

/-- C1 (amended): a failed `player_move` leaves the engine state exactly
unchanged whenever the phase is not `IDLE`; from `IDLE` the auto-reset runs
before position validation, so a failed move leaves the freshly reset
state. -/
theorem player_move_failure_frame (g : TicTacToeGame) (position : Int)
    (h : (player_move g position).1.success = false) :
    (player_move g position).2 = if g.state = GameState.IDLE then reset g else g := by
  simp only [player_move] at h ⊢
  split_ifs at h ⊢ <;> simp_all

/-- C1 counterexample: in the `IDLE` phase with the out-of-range position 9,
`player_move` fails yet the engine state changes (the auto-reset has moved
the phase to `PLAYER_TURN`). -/
theorem player_move_idle_failure_mutates :
    (player_move { initial_game with state := GameState.IDLE } 9).1.success = false ∧
    (player_move { initial_game with state := GameState.IDLE } 9).2 ≠
      { initial_game with state := GameState.IDLE } := by
  refine ⟨by decide, fun h => ?_⟩
  have := congrArg TicTacToeGame.state h
  revert this
  decide

/-- C1 witness: a failed move in the `COMPUTER_TURN` phase leaves the state
unchanged. -/
theorem player_move_failure_frame_witness :
    (player_move { initial_game with state := GameState.COMPUTER_TURN } 0).1.success = false ∧
    (player_move { initial_game with state := GameState.COMPUTER_TURN } 0).2 =
      if { initial_game with state := GameState.COMPUTER_TURN }.state = GameState.IDLE then
        reset { initial_game with state := GameState.COMPUTER_TURN }
      else { initial_game with state := GameState.COMPUTER_TURN } :=
  ⟨by decide,
   player_move_failure_frame { initial_game with state := GameState.COMPUTER_TURN } 0 (by decide)⟩

/-- C8: `purchase_avatar` fails with "not found" when the id is absent from
the catalog, else with "already unlocked" when already owned, else with the
required-vs-available token message when the balance is short — each failure
returning the state unchanged — and otherwise succeeds, deducting the cost,
appending the id to the unlocked list and selecting it. -/
theorem purchase_avatar_cases (g : TicTacToeGame) (avatar_id : String) :
    ((∀ a ∈ AVATARS, a.id ≠ avatar_id) →
      purchase_avatar g avatar_id =
        ({ success := false, message := "Avatar not found", avatar := none }, g)) ∧
    (∀ a ∈ AVATARS, a.id = avatar_id →
      (avatar_id ∈ g.unlocked_avatars →
        purchase_avatar g avatar_id =
          ({ success := false, message := "Avatar already unlocked", avatar := none }, g)) ∧
      (avatar_id ∉ g.unlocked_avatars → g.tokens < a.cost →
        purchase_avatar g avatar_id =
          ({ success := false,
             message := s!"Not enough tokens! Need {a.cost}, have {g.tokens}",
             avatar := none }, g)) ∧
      (avatar_id ∉ g.unlocked_avatars → ¬g.tokens < a.cost →
        purchase_avatar g avatar_id =
          ({ success := true, message := s!"Unlocked {a.name}!", avatar := some a },
           { g with
             tokens := g.tokens - a.cost
             unlocked_avatars := g.unlocked_avatars ++ [avatar_id]
             current_avatar := avatar_id }))) := by
  constructor
  · intro hnone
    have hf : AVATARS.find? (fun a => a.id == avatar_id) = none := by
      rw [List.find?_eq_none]
      intro a ha
      simpa using hnone a ha
    simp [purchase_avatar, hf]
  · intro a ha hid
    subst hid
    have hf : AVATARS.find? (fun a2 => a2.id == a.id) = some a := by
      fin_cases ha <;> decide
    refine ⟨?_, ?_, ?_⟩
    · intro hin
      simp [purchase_avatar, hf, hin]
    · intro hnin htok
      simp [purchase_avatar, hf, hnin, htok]
    · intro hnin htok
      simp [purchase_avatar, hf, hnin, htok]

/-- C8 witness: all four branches at concrete inputs — an unknown id, the
pre-unlocked "egg", "chick" with an empty balance, and "chick" with 30
tokens. -/
theorem purchase_avatar_cases_witness :
    purchase_avatar initial_game "missing" =
      ({ success := false, message := "Avatar not found", avatar := none }, initial_game) ∧
    purchase_avatar initial_game "egg" =
      ({ success := false, message := "Avatar already unlocked", avatar := none }, initial_game) ∧
    purchase_avatar initial_game "chick" =
      ({ success := false,
         message := s!"Not enough tokens! Need {(25 : Int)}, have {(0 : Int)}",
         avatar := none }, initial_game) ∧
    purchase_avatar { initial_game with tokens := 30 } "chick" =
      ({ success := true, message := "Unlocked " ++ "Chick" ++ "!",
         avatar := some { id := "chick", name := "Chick", emoji := "e1", cost := 25,
                          description := "Hatching your skills!" } },
       { initial_game with
         tokens := (30 : Int) - 25
         unlocked_avatars := initial_game.unlocked_avatars ++ ["chick"]
         current_avatar := "chick" }) :=
  ⟨(purchase_avatar_cases initial_game "missing").1 (by decide),
   ((purchase_avatar_cases initial_game "egg").2
      { id := "egg", name := "Egg", emoji := "e0", cost := 0,
        description := "Just starting out!" } (by decide) (by decide)).1 (by decide),
   ((purchase_avatar_cases initial_game "chick").2
      { id := "chick", name := "Chick", emoji := "e1", cost := 25,
        description := "Hatching your skills!" } (by decide) (by decide)).2.1
      (by decide) (by decide),
   ((purchase_avatar_cases { initial_game with tokens := 30 } "chick").2
      { id := "chick", name := "Chick", emoji := "e1", cost := 25,
        description := "Hatching your skills!" } (by decide) (by decide)).2.2
      (by decide) (by decide)⟩

/-- C9 (amended): on every board with at least one empty position the
heuristic returns an index; but the priority-6 fallback does not guard the
empty-list case — on a board with no empty cell `empty[0]` fails. -/
theorem calc_best_move_returns_on_nonempty (board : List Mark)
    (h : get_empty_positions board ≠ []) :
    ((_calculate_best_move board).1).isSome = true := by
  simp only [_calculate_best_move]
  rcases h1 : scan_try board Mark.O (get_empty_positions board) with ⟨o1, b1⟩
  cases o1 with
  | some pos => simp [h1]
  | none =>
    rcases h2 : scan_try b1 Mark.X (get_empty_positions board) with ⟨o2, b2⟩
    cases o2 with
    | some pos => simp [h1, h2]
    | none =>
      by_cases h4 : 4 ∈ get_empty_positions board
      · simp [h1, h2, h4]
      · cases h5 : ([0, 2, 6, 8] : List Nat).find?
            (fun corner => (get_empty_positions board).contains corner) with
        | some corner => simp [h1, h2, h4, h5]
        | none =>
          cases h6 : ([1, 3, 5, 7] : List Nat).find?
              (fun edge => (get_empty_positions board).contains edge) with
          | some edge => simp [h1, h2, h4, h5, h6]
          | none => simp [h1, h2, h4, h5, h6, List.head?_isSome, h]

/-- C9 counterexample: on the full board of 9 player marks the list of empty
positions is empty and `_calculate_best_move` fails (the `Option` result
models the `IndexError` that `empty[0]` raises), so the fallback is not a
safe total guard. -/
theorem calc_best_move_full_board_fails :
    get_empty_positions (List.replicate 9 Mark.X) = [] ∧
    (_calculate_best_move (List.replicate 9 Mark.X)).1 = none := by decide

/-- C9 witness: the empty board has empty positions and gets a move. -/
theorem calc_best_move_returns_on_nonempty_witness :
    get_empty_positions (List.replicate 9 Mark.EMPTY) ≠ [] ∧
    ((_calculate_best_move (List.replicate 9 Mark.EMPTY)).1).isSome = true :=
  ⟨by decide, calc_best_move_returns_on_nonempty (List.replicate 9 Mark.EMPTY) (by decide)⟩

/-- The simulate-and-revert scan equals a pure first-match search and leaves
the board exactly as it found it, provided every scanned position holds
`EMPTY` (which `get_empty_positions` guarantees). -/
lemma scan_try_spec (mark : Mark) (ps : List Nat) :
    ∀ board : List Mark, (∀ p ∈ ps, board.getD p Mark.EMPTY = Mark.EMPTY) →
      scan_try board mark ps =
        ((ps.find? fun pos => check_win (board.set pos mark) mark), board) := by
  induction ps with
  | nil =>
    intro board _
    rfl
  | cons pos rest ih =>
    intro board hps
    have hpos : board.getD pos Mark.EMPTY = Mark.EMPTY := hps pos (List.mem_cons_self pos rest)
    have hrev : (board.set pos mark).set pos Mark.EMPTY = board :=
      set_set_empty_cancel board pos mark hpos
    by_cases hw : check_win (board.set pos mark) mark = true
    · simp [scan_try, hw, hrev, List.find?_cons_of_pos]
    · simp only [scan_try, if_neg hw, hrev]
      rw [ih board (fun p hp => hps p (List.mem_cons_of_mem _ hp))]
      rw [List.find?_cons_of_neg _ (by simpa using hw)]

/-- The move described by the priority list of the spec, written from its words:
the first empty cell (ascending) whose occupation completes an opponent win;
else the first whose occupation would complete a player win (the block);
else the center 4; else the first empty corner in the order 0, 2, 6, 8;
else the first empty edge in the order 1, 3, 5, 7. -/
def best_move_per_spec (board : List Mark) : Option Nat :=
  let empty := get_empty_positions board
  match empty.find? (fun pos => check_win (board.set pos Mark.O) Mark.O) with
  | some pos => some pos
  | none =>
    match empty.find? (fun pos => check_win (board.set pos Mark.X) Mark.X) with
    | some pos => some pos
    | none =>
      if 4 ∈ empty then some 4
      else
        match ([0, 2, 6, 8] : List Nat).find? (fun corner => empty.contains corner) with
        | some corner => some corner
        | none => ([1, 3, 5, 7] : List Nat).find? (fun edge => empty.contains edge)

/-- C2: on every 9-cell board with at least one empty cell, the heuristic
returns exactly the move of the priority list of the spec, that list
does produce a move, and the board comes back exactly as it was (every
trial mark is reverted). -/
theorem calc_best_move_matches_priorities (board : List Mark)
    (h9 : board.length = 9) (hemp : Mark.EMPTY ∈ board) :
    _calculate_best_move board = (best_move_per_spec board, board) ∧
    (best_move_per_spec board).isSome = true := by
  have hne : get_empty_positions board ≠ [] := by
    obtain ⟨i, hi, hgi⟩ := List.getElem_of_mem hemp
    apply List.ne_nil_of_mem (a := i)
    unfold get_empty_positions
    rw [List.mem_filter, List.mem_range]
    constructor
    · omega
    · simp [List.getD_eq_getElem?_getD, List.getElem?_eq_getElem hi, hgi]
  have hokO : ∀ p ∈ get_empty_positions board, board.getD p Mark.EMPTY = Mark.EMPTY :=
    fun p hp => (mem_get_empty_positions hp).1
  have hO := scan_try_spec Mark.O (get_empty_positions board) board hokO
  have hX := scan_try_spec Mark.X (get_empty_positions board) board hokO
  have himpossible :
      4 ∉ get_empty_positions board →
      ([0, 2, 6, 8] : List Nat).find?
        (fun corner => decide (corner ∈ get_empty_positions board)) = none →
      ([1, 3, 5, 7] : List Nat).find?
        (fun edge => decide (edge ∈ get_empty_positions board)) = none →
      False := by
    intro h4 h5 h6
    obtain ⟨x, hx⟩ := List.exists_mem_of_ne_nil _ hne
    have hx9 := (mem_get_empty_positions hx).2
    have hc := List.find?_eq_none.mp h5
    have he := List.find?_eq_none.mp h6
    have hcx : ∀ c ∈ ([0, 2, 6, 8] : List Nat), x ≠ c := by
      intro c hcm hxc
      subst hxc
      exact hc x hcm (by simpa using hx)
    have hex : ∀ e ∈ ([1, 3, 5, 7] : List Nat), x ≠ e := by
      intro e hem hxe
      subst hxe
      exact he x hem (by simpa using hx)
    interval_cases x
    · exact hcx 0 (by decide) rfl
    · exact hex 1 (by decide) rfl
    · exact hcx 2 (by decide) rfl
    · exact hex 3 (by decide) rfl
    · exact h4 hx
    · exact hex 5 (by decide) rfl
    · exact hcx 6 (by decide) rfl
    · exact hex 7 (by decide) rfl
    · exact hcx 8 (by decide) rfl
  cases hfO : (get_empty_positions board).find?
      (fun pos => check_win (board.set pos Mark.O) Mark.O) with
  | some pos =>
    constructor
    · simp [_calculate_best_move, best_move_per_spec, hO, hfO]
    · simp [best_move_per_spec, hfO]
  | none =>
    cases hfX : (get_empty_positions board).find?
        (fun pos => check_win (board.set pos Mark.X) Mark.X) with
    | some pos =>
      constructor
      · simp [_calculate_best_move, best_move_per_spec, hO, hX, hfO, hfX]
      · simp [best_move_per_spec, hfO, hfX]
    | none =>
      by_cases h4 : 4 ∈ get_empty_positions board
      · constructor
        · simp [_calculate_best_move, best_move_per_spec, hO, hX, hfO, hfX, h4]
        · simp [best_move_per_spec, hfO, hfX, h4]
      · cases h5 : ([0, 2, 6, 8] : List Nat).find?
            (fun corner => decide (corner ∈ get_empty_positions board)) with
        | some corner =>
          constructor
          · simp [_calculate_best_move, best_move_per_spec, hO, hX, hfO, hfX, h4, h5]
          · simp [best_move_per_spec, hfO, hfX, h4, h5]
        | none =>
          cases h6 : ([1, 3, 5, 7] : List Nat).find?
              (fun edge => decide (edge ∈ get_empty_positions board)) with
          | some edge =>
            constructor
            · simp [_calculate_best_move, best_move_per_spec, hO, hX, hfO, hfX, h4, h5, h6]
            · simp [best_move_per_spec, hfO, hfX, h4, h5, h6]
          | none => exact (himpossible h4 h5 h6).elim

/-- C2 witness: a board where the opponent can win at index 2: the heuristic
takes it, matches the spec priority list, and the board is untouched. -/
theorem calc_best_move_matches_priorities_witness :
    _calculate_best_move
        [Mark.O, Mark.O, Mark.EMPTY, Mark.X, Mark.X, Mark.EMPTY,
         Mark.EMPTY, Mark.EMPTY, Mark.EMPTY] =
      (best_move_per_spec
        [Mark.O, Mark.O, Mark.EMPTY, Mark.X, Mark.X, Mark.EMPTY,
         Mark.EMPTY, Mark.EMPTY, Mark.EMPTY],
       [Mark.O, Mark.O, Mark.EMPTY, Mark.X, Mark.X, Mark.EMPTY,
        Mark.EMPTY, Mark.EMPTY, Mark.EMPTY]) ∧
    (best_move_per_spec
        [Mark.O, Mark.O, Mark.EMPTY, Mark.X, Mark.X, Mark.EMPTY,
         Mark.EMPTY, Mark.EMPTY, Mark.EMPTY]).isSome = true :=
  calc_best_move_matches_priorities
    [Mark.O, Mark.O, Mark.EMPTY, Mark.X, Mark.X, Mark.EMPTY,
     Mark.EMPTY, Mark.EMPTY, Mark.EMPTY] (by decide) (by decide)

/-- The economy/countdown invariant: the adaptive countdown stays within
[1, 10] and the token balance stays within [0, lifetime earned]. -/
def EconInv (g : TicTacToeGame) : Prop :=
  (1 ≤ g.current_countdown ∧ g.current_countdown ≤ 10) ∧
  (0 ≤ g.tokens ∧ g.tokens ≤ g.total_tokens_earned)

/-- Every catalog avatar has a nonnegative cost. -/
lemma avatar_cost_nonneg (a : Avatar) (h : a ∈ AVATARS) : 0 ≤ a.cost := by
  fin_cases h <;> norm_num

/-- `_record_game_result` preserves the invariant. -/
lemma record_result_econ_inv (g : TicTacToeGame) (won draw : Bool) (h : EconInv g) :
    EconInv (_record_game_result g won draw) := by
  obtain ⟨⟨hc1, hc2⟩, ht1, ht2⟩ := h
  obtain ⟨bo, st, di, cs, bv, w, wc, lm, ws, bs, gp, gw, ls, cc, tok, tot, ca, ua⟩ := g
  simp only [EconInv] at *
  cases won <;> cases draw <;>
    simp only [_record_game_result] <;>
    cases di <;>
    split_ifs <;>
    simp_all [TOKEN_REWARDS.win_easy, TOKEN_REWARDS.win_medium, TOKEN_REWARDS.win_hard,
      TOKEN_REWARDS.streak_bonus, TOKEN_REWARDS.draw] <;>
    omega

/-- `player_move` preserves the invariant. -/
lemma player_move_econ_inv (g : TicTacToeGame) (p : Int) (h : EconInv g) :
    EconInv (player_move g p).2 := by
  simp only [player_move]
  split_ifs <;>
    first
      | exact h
      | exact record_result_econ_inv _ _ _ h

/-- The `computer_move` step of `apply_op` preserves the invariant. -/
lemma computer_move_econ_inv (g : TicTacToeGame) (h : EconInv g) :
    EconInv (match computer_move g with | some r => r.2 | none => g) := by
  simp only [computer_move]
  split_ifs with hs
  · exact h
  · rcases hm : _calculate_best_move g.board with ⟨o, b⟩
    cases o with
    | none => exact h
    | some pos =>
      dsimp only
      split_ifs <;>
        first
          | exact h
          | exact record_result_econ_inv _ _ _ h

/-- `purchase_avatar` preserves the invariant. -/
lemma purchase_avatar_econ_inv (g : TicTacToeGame) (id : String) (h : EconInv g) :
    EconInv (purchase_avatar g id).2 := by
  simp only [purchase_avatar]
  cases hf : AVATARS.find? (fun a => a.id == id) with
  | none => exact h
  | some a =>
    have hcost : 0 ≤ a.cost := avatar_cost_nonneg a (List.mem_of_find?_eq_some hf)
    obtain ⟨⟨hc1, hc2⟩, ht1, ht2⟩ := h
    simp only [hf]
    split_ifs with h1 h2
    · exact ⟨⟨hc1, hc2⟩, ht1, ht2⟩
    · exact ⟨⟨hc1, hc2⟩, ht1, ht2⟩
    · refine ⟨⟨hc1, hc2⟩, ?_, ?_⟩ <;> dsimp only <;> omega

/-- `set_difficulty` preserves the invariant. -/
lemma set_difficulty_econ_inv (g : TicTacToeGame) (d : Difficulty) (h : EconInv g) :
    EconInv (set_difficulty g d) := by
  refine ⟨?_, h.2⟩
  cases d <;> exact ⟨by simp [set_difficulty, COUNTDOWN_TIMES], by simp [set_difficulty, COUNTDOWN_TIMES]⟩

/-- `set_board_visible` preserves the invariant. -/
lemma set_board_visible_econ_inv (g : TicTacToeGame) (v : Bool) (h : EconInv g) :
    EconInv (set_board_visible g v) := by
  simp only [set_board_visible]
  split_ifs <;> exact h

/-- `set_avatar` preserves the invariant. -/
lemma set_avatar_econ_inv (g : TicTacToeGame) (id : String) (h : EconInv g) :
    EconInv (set_avatar g id).2 := by
  simp only [set_avatar]
  split_ifs <;> exact h

/-- Every public operation preserves the invariant. -/
lemma apply_op_econ_inv (g : TicTacToeGame) (op : Op) (h : EconInv g) :
    EconInv (apply_op g op) := by
  cases op with
  | opReset => exact h
  | opSetDifficulty d => exact set_difficulty_econ_inv g d h
  | opPlayerMove p => exact player_move_econ_inv g p h
  | opComputerMove => exact computer_move_econ_inv g h
  | opSetBoardVisible v => exact set_board_visible_econ_inv g v h
  | opPurchaseAvatar id => exact purchase_avatar_econ_inv g id h
  | opSetAvatar id => exact set_avatar_econ_inv g id h

/-- The invariant holds in every reachable engine state. -/
lemma reachable_econ_inv (g : TicTacToeGame) (h : Reachable g) : EconInv g := by
  induction h with
  | init => exact ⟨⟨by decide, by decide⟩, by decide, by decide⟩
  | step op _ ih => exact apply_op_econ_inv _ op ih

/-- C6: in every reachable engine state the adaptive countdown lies in
[1, 10]: wins never drive it below 1, the mercy mechanic never above 10. -/
theorem reachable_countdown_in_bounds (g : TicTacToeGame) (h : Reachable g) :
    1 ≤ g.current_countdown ∧ g.current_countdown ≤ 10 :=
  (reachable_econ_inv g h).1

/-- C6 witness: the initial engine. -/
theorem reachable_countdown_in_bounds_witness :
    1 ≤ initial_game.current_countdown ∧ initial_game.current_countdown ≤ 10 :=
  reachable_countdown_in_bounds initial_game Reachable.init

/-- C10: in every reachable engine state the token balance is nonnegative
and bounded by the lifetime-earned total. -/
theorem reachable_tokens_within_earned (g : TicTacToeGame) (h : Reachable g) :
    0 ≤ g.tokens ∧ g.tokens ≤ g.total_tokens_earned :=
  (reachable_econ_inv g h).2

/-- C10 witness: the engine one reset step after construction. -/
theorem reachable_tokens_within_earned_witness :
    0 ≤ (apply_op initial_game Op.opReset).tokens ∧
    (apply_op initial_game Op.opReset).tokens ≤
      (apply_op initial_game Op.opReset).total_tokens_earned :=
  reachable_tokens_within_earned (apply_op initial_game Op.opReset)
    (Reachable.step Op.opReset Reachable.init)
